import Mathlib

/-!
Shallow embedding of the Convex push-notification repository.

Two deployment variants are modelled, following the two source files:
* `WithAuth` embeds `with auth/convex/pushNotifications.ts` (recipients are
  authenticated users with an optional `pushToken` field);
* `Devices` embeds the device-based variant (recipients are self-registered
  device rows with a mandatory `pushToken` and an optional `isActive` flag).

The external delivery component (`pushNotifications.sendPushNotification`)
is modelled as an oracle `send : Nat → SendResult`: for a given recipient id
the call either returns a notification id, returns null, or throws.  Database
reads are modelled as lists of rows; JavaScript truthiness of optional
strings/booleans is translated explicitly.  Functions that call the external
component also return the list of recipient ids for which a delivery call
was made, so that "no delivery was attempted" is expressible.
-/

namespace ConvexPush

/-- Behaviour of one call to the external delivery component:
`ok id` models a returned notification id, `nullId` models a `null` return,
`err m` models a thrown error whose stringified message is `m`. -/
inductive SendResult where
  | ok (notificationId : String)
  | nullId
  | err (msg : String)
deriving DecidableEq, Repr

/-- True exactly when the delivery call returned `null`. -/
def SendResult.isNullId : SendResult → Bool
  | .ok _ => false
  | .nullId => true
  | .err _ => false

/-- True exactly when the delivery call threw. -/
def SendResult.isErr : SendResult → Bool
  | .ok _ => false
  | .nullId => false
  | .err _ => true

/-- JavaScript truthiness of an optional string field: truthy iff present
and non-empty (`user.pushToken` in the source). -/
def tokenTruthy : Option String → Bool
  | none => false
  | some s => !(s == "")

/-- Accumulated state of the sequential broadcast loop: the two counters,
the per-recipient detail list, and the ids for which the external delivery
component was called. -/
structure LoopOut (δ : Type) where
  success : Nat
  failed : Nat
  details : List δ
  attempts : List Nat
deriving DecidableEq, Repr

/-- Status of the external delivery component for one recipient, as
returned by `getStatusForUser`. -/
structure ExtStatus where
  hasToken : Bool
  paused : Bool
deriving DecidableEq, Repr

namespace WithAuth

/-- A row of the `users` table; only the fields the push code reads. -/
structure User where
  id : Nat
  pushToken : Option String
deriving DecidableEq, Repr

/-- Per-recipient outcome in the authenticated variant. -/
inductive UserStatus where
  | success
  | failed
  | no_token
deriving DecidableEq, Repr

/-- One entry of the `details` array of the authenticated broadcasts. -/
structure UserDetail where
  userId : Nat
  status : UserStatus
  notificationId : Option String
  error : Option String
deriving DecidableEq, Repr

/-- Sequential send loop of `sendBroadcastNotification` / `sendSystemBroadcast`
(authenticated variant): a returned id counts as success, a `null` return is
recorded as `no_token` without touching either counter, a thrown error is
caught, recorded as `failed` and counted. -/
def broadcastLoop (send : Nat → SendResult) : List User → LoopOut UserDetail
  | [] => ⟨0, 0, [], []⟩
  | u :: rest =>
    let o := broadcastLoop send rest
    match send u.id with
    | .ok nid => ⟨o.success + 1, o.failed, ⟨u.id, .success, some nid, none⟩ :: o.details, u.id :: o.attempts⟩
    | .nullId => ⟨o.success, o.failed, ⟨u.id, .no_token, none, none⟩ :: o.details, u.id :: o.attempts⟩
    | .err m => ⟨o.success, o.failed + 1, ⟨u.id, .failed, none, some m⟩ :: o.details, u.id :: o.attempts⟩

/-- The filter guard `args.excludeCurrentUser && currentUser && user._id ===
currentUser._id` of the authenticated broadcast. -/
def isExcluded (excludeCurrentUser : Option Bool) (currentUser : Option User) (u : User) : Bool :=
  match excludeCurrentUser, currentUser with
  | some true, some c => u.id == c.id
  | _, _ => false

/-- `usersWithTokens` of the authenticated broadcast: not excluded and with a
truthy `pushToken`. -/
def usersWithTokensOf (users : List User) (currentUser : Option User)
    (excludeCurrentUser : Option Bool) : List User :=
  users.filter fun u => !(isExcluded excludeCurrentUser currentUser u) && tokenTruthy u.pushToken

/-- `usersWithoutTokens` of the authenticated broadcast: not excluded and
without a truthy `pushToken`. -/
def usersWithoutTokensOf (users : List User) (currentUser : Option User)
    (excludeCurrentUser : Option Bool) : List User :=
  users.filter fun u => !(isExcluded excludeCurrentUser currentUser u) && !(tokenTruthy u.pushToken)

/-- Return value of the authenticated `sendBroadcastNotification`. -/
structure AuthBroadcastResult where
  success : Nat
  failed : Nat
  total : Nat
  senderId : Option Nat
  details : List UserDetail
deriving DecidableEq, Repr

/-- Embedding of the authenticated `sendBroadcastNotification`.  `currentUser`
is the result of `getCurrentUser` (None when unauthenticated).  Returns the
handler result (an auth error when `requireAuth` holds and no caller is
authenticated) together with the list of delivery attempts. -/
def sendBroadcastNotification (send : Nat → SendResult) (users : List User)
    (currentUser : Option User) (excludeCurrentUser requireAuthArg : Option Bool) :
    Except String AuthBroadcastResult × List Nat :=
  let requireAuth := requireAuthArg != some false
  if requireAuth && currentUser.isNone then
    (.error "User must be authenticated to send broadcast notifications", [])
  else
    let senderId := currentUser.map (fun u => u.id)
    let withTok := usersWithTokensOf users currentUser excludeCurrentUser
    let o := broadcastLoop send withTok
    let withoutTok := usersWithoutTokensOf users currentUser excludeCurrentUser
    (.ok { success := o.success, failed := o.failed, total := withTok.length,
           senderId := senderId,
           details := o.details ++ withoutTok.map (fun u => ⟨u.id, .no_token, none, none⟩) },
     o.attempts)

/-- Return value of `sendSystemBroadcast`. -/
structure SystemBroadcastResult where
  success : Nat
  failed : Nat
  total : Nat
  totalUsers : Nat
  usersWithTokens : Nat
  usersWithoutTokens : Nat
  details : List UserDetail
deriving DecidableEq, Repr

/-- Embedding of `sendSystemBroadcast`: no authentication, no exclusion. -/
def sendSystemBroadcast (send : Nat → SendResult) (users : List User) :
    SystemBroadcastResult × List Nat :=
  let withTok := users.filter fun u => tokenTruthy u.pushToken
  let withoutTok := users.filter fun u => !(tokenTruthy u.pushToken)
  let o := broadcastLoop send withTok
  ({ success := o.success, failed := o.failed, total := withTok.length,
     totalUsers := users.length, usersWithTokens := withTok.length,
     usersWithoutTokens := withoutTok.length,
     details := o.details ++ withoutTok.map (fun u => ⟨u.id, .no_token, none, none⟩) },
   o.attempts)

/-- The `users` table. -/
structure UserDB where
  rows : List User
deriving DecidableEq, Repr

/-- Embedding of `recordPushToken`: requires an authenticated user, then
patches the row of that user with the token (via ctx.db.patch). -/
def recordPushToken (db : UserDB) (currentUser : Option User) (token : String) :
    Except String UserDB :=
  match currentUser with
  | none => .error "User must be authenticated to record push token"
  | some u =>
    .ok ⟨db.rows.map fun w => if w.id == u.id then { w with pushToken := some token } else w⟩

/-- Embedding of `sendNotificationToUser`: auth check, recipient fetch with a
hard not-found error, then one delivery call (a thrown delivery error
propagates).  Second component: the delivery attempts made. -/
def sendNotificationToUser (db : UserDB) (currentUser : Option User)
    (send : Nat → SendResult) (recipientId : Nat) :
    Except String (Option String) × List Nat :=
  match currentUser with
  | none => (.error "User must be authenticated to send notifications", [])
  | some _ =>
    match db.rows.find? (fun u => u.id == recipientId) with
    | none => (.error "Recipient not found", [])
    | some _ =>
      match send recipientId with
      | .ok nid => (.ok (some nid), [recipientId])
      | .nullId => (.ok none, [recipientId])
      | .err m => (.error m, [recipientId])

/-- Embedding of `getMyPushStatus`: default status when unauthenticated,
otherwise the status reported by the external component. -/
def getMyPushStatus (currentUser : Option User) (status : Nat → ExtStatus) : ExtStatus :=
  match currentUser with
  | none => ⟨false, false⟩
  | some u => status u.id

end WithAuth

namespace Devices

/-- A row of the `devices` table, per the schema of the device variant. -/
structure Device where
  id : Nat
  pushToken : String
  deviceId : Option String
  platform : Option String
  appVersion : Option String
  lastSeen : Nat
  isActive : Option Bool
deriving DecidableEq, Repr

/-- Per-recipient outcome in the device variant. -/
inductive DeviceStatus where
  | success
  | failed
  | inactive
deriving DecidableEq, Repr

/-- One entry of the `details` array of the device broadcast. -/
structure DeviceDetail where
  deviceId : Nat
  status : DeviceStatus
  notificationId : Option String
  error : Option String
deriving DecidableEq, Repr

/-- Sequential send loop of the device `sendBroadcastNotification`: a
returned id counts as success, a `null` return is recorded as `failed`
with an explanatory message but without touching either counter, a thrown
error is caught, recorded as `failed` and counted. -/
def broadcastLoop (send : Nat → SendResult) : List Device → LoopOut DeviceDetail
  | [] => ⟨0, 0, [], []⟩
  | d :: rest =>
    let o := broadcastLoop send rest
    match send d.id with
    | .ok nid => ⟨o.success + 1, o.failed, ⟨d.id, .success, some nid, none⟩ :: o.details, d.id :: o.attempts⟩
    | .nullId => ⟨o.success, o.failed, ⟨d.id, .failed, none, some "No notification ID returned"⟩ :: o.details, d.id :: o.attempts⟩
    | .err m => ⟨o.success, o.failed + 1, ⟨d.id, .failed, none, some m⟩ :: o.details, d.id :: o.attempts⟩

/-- `activeDevices` of the device broadcast: not the excluded id, and
`device.isActive !== false` (absent counts as active). -/
def activeDevicesOf (devices : List Device) (excludeDeviceId : Option Nat) : List Device :=
  devices.filter fun d => (excludeDeviceId != some d.id) && !(d.isActive == some false)

/-- `inactiveDevices` of the device broadcast: not the excluded id, and
`device.isActive === false`. -/
def inactiveDevicesOf (devices : List Device) (excludeDeviceId : Option Nat) : List Device :=
  devices.filter fun d => (excludeDeviceId != some d.id) && (d.isActive == some false)

/-- Return value of the device `sendBroadcastNotification`. -/
structure DeviceBroadcastResult where
  success : Nat
  failed : Nat
  total : Nat
  details : List DeviceDetail
deriving DecidableEq, Repr

/-- Embedding of the device `sendBroadcastNotification`: loop over the
active devices, then append every inactive (non-excluded) device with
status `inactive`; `total` is the active-device count.  Second component:
the delivery attempts made. -/
def sendBroadcastNotification (send : Nat → SendResult) (devices : List Device)
    (excludeDeviceId : Option Nat) : DeviceBroadcastResult × List Nat :=
  let activeDevices := activeDevicesOf devices excludeDeviceId
  let o := broadcastLoop send activeDevices
  let inactiveDevices := inactiveDevicesOf devices excludeDeviceId
  ({ success := o.success, failed := o.failed, total := activeDevices.length,
     details := o.details ++ inactiveDevices.map (fun d => ⟨d.id, .inactive, none, none⟩) },
   o.attempts)

/-- The `devices` table together with the id the store would assign to the
next inserted row. -/
structure DeviceDB where
  rows : List Device
  nextId : Nat
deriving DecidableEq, Repr

/-- Arguments of `registerDevice`. -/
structure RegisterArgs where
  pushToken : String
  deviceId : Option String
  platform : Option String
  appVersion : Option String
deriving DecidableEq, Repr

/-- Embedding of `registerDevice`: look the token up by the `pushToken`
index; if a row exists, patch it (timestamps, metadata, `isActive := true`)
and return its id; otherwise insert a fresh row and return the new id. -/
def registerDevice (db : DeviceDB) (args : RegisterArgs) (now : Nat) : Nat × DeviceDB :=
  match db.rows.find? (fun d => d.pushToken == args.pushToken) with
  | some existing =>
    (existing.id,
     { db with rows := db.rows.map fun d =>
        if d.id == existing.id then
          { d with lastSeen := now, isActive := some true, platform := args.platform,
                   appVersion := args.appVersion, deviceId := args.deviceId }
        else d })
  | none =>
    (db.nextId,
     { rows := db.rows ++ [{ id := db.nextId, pushToken := args.pushToken,
                             deviceId := args.deviceId, platform := args.platform,
                             appVersion := args.appVersion, lastSeen := now,
                             isActive := some true }],
       nextId := db.nextId + 1 })

/-- Embedding of `removeDeviceToken`: a hard not-found error when the row
does not exist, otherwise deregister externally and patch
`isActive := false`. -/
def removeDeviceToken (db : DeviceDB) (deviceId : Nat) : Except String DeviceDB :=
  match db.rows.find? (fun d => d.id == deviceId) with
  | none => .error "Device not found"
  | some _ =>
    .ok { db with rows := db.rows.map fun d =>
           if d.id == deviceId then { d with isActive := some false } else d }

/-- Embedding of `sendNotificationToDevice`: not-found and inactive checks
(`!device.isActive` throws, so an absent flag also throws here), then one
delivery call (a thrown delivery error propagates) and a `lastSeen` patch.
Components: handler result, database afterwards, delivery attempts made. -/
def sendNotificationToDevice (db : DeviceDB) (send : Nat → SendResult)
    (deviceId : Nat) (now : Nat) :
    Except String (Option String) × DeviceDB × List Nat :=
  match db.rows.find? (fun d => d.id == deviceId) with
  | none => (.error "Device not found", db, [])
  | some device =>
    if device.isActive == some true then
      let patched : DeviceDB :=
        { db with rows := db.rows.map fun d =>
            if d.id == deviceId then { d with lastSeen := now } else d }
      match send deviceId with
      | .ok nid => (.ok (some nid), patched, [deviceId])
      | .nullId => (.ok none, patched, [deviceId])
      | .err m => (.error m, db, [deviceId])
    else
      (.error "Device is not active", db, [])

/-- Status object returned by `getDevicePushStatus`. -/
structure DevicePushStatus where
  hasToken : Bool
  paused : Bool
  isActive : Bool
deriving DecidableEq, Repr

/-- Embedding of `getDevicePushStatus`: a fixed default for a missing row,
otherwise the external status merged with `device.isActive ?? true`. -/
def getDevicePushStatus (db : DeviceDB) (status : Nat → ExtStatus) (deviceId : Nat) :
    DevicePushStatus :=
  match db.rows.find? (fun d => d.id == deviceId) with
  | none => ⟨false, false, false⟩
  | some device =>
    let s := status deviceId
    ⟨s.hasToken, s.paused, device.isActive.getD true⟩

end Devices

/-! Helper lemmas shared by the claims. -/

theorem isNullId_ok (n : String) : (SendResult.ok n).isNullId = false := rfl

theorem isNullId_nullId : SendResult.nullId.isNullId = true := rfl

theorem isNullId_err (m : String) : (SendResult.err m).isNullId = false := rfl

theorem isErr_ok (n : String) : (SendResult.ok n).isErr = false := rfl

theorem isErr_nullId : SendResult.nullId.isErr = false := rfl

theorem isErr_err (m : String) : (SendResult.err m).isErr = true := rfl

/-- Splitting a list by a second predicate: the elements satisfying `p ∧ q`
followed by those satisfying `p ∧ ¬q` are a permutation of those
satisfying `p`. -/
theorem filter_split_perm (p q : α → Bool) (l : List α) :
    List.Perm ((l.filter fun a => p a && q a) ++ (l.filter fun a => p a && !(q a)))
      (l.filter p) := by
  induction l with
  | nil => simp
  | cons a t ih =>
    cases hp : p a <;> cases hq : q a <;>
      simp only [List.filter_cons, hp, hq, Bool.true_and, Bool.false_and, Bool.not_true,
        Bool.not_false, Bool.and_true, Bool.and_false, if_true, if_false, List.cons_append]
    · exact ih
    · exact ih
    · exact List.perm_middle.trans (ih.cons a)
    · exact ih.cons a

namespace WithAuth

theorem broadcastLoopU_details_ids (send : Nat → SendResult) (l : List User) :
    (broadcastLoop send l).details.map (fun e => e.userId) = l.map (fun u => u.id) := by
  induction l with
  | nil => simp [broadcastLoop]
  | cons u t ih => cases h : send u.id <;> simp [broadcastLoop, h, ih]

theorem broadcastLoopU_attempts (send : Nat → SendResult) (l : List User) :
    (broadcastLoop send l).attempts = l.map (fun u => u.id) := by
  induction l with
  | nil => simp [broadcastLoop]
  | cons u t ih => cases h : send u.id <;> simp [broadcastLoop, h, ih]

theorem broadcastLoopU_counts (send : Nat → SendResult) (l : List User) :
    (broadcastLoop send l).success + (broadcastLoop send l).failed
      + l.countP (fun u => (send u.id).isNullId) = l.length := by
  induction l with
  | nil => simp [broadcastLoop]
  | cons u t ih =>
    cases h : send u.id <;>
      simp [broadcastLoop, h, List.countP_cons, isNullId_ok, isNullId_nullId,
        isNullId_err] <;> omega

theorem broadcastLoopU_failed (send : Nat → SendResult) (l : List User) :
    (broadcastLoop send l).failed = l.countP (fun u => (send u.id).isErr) := by
  induction l with
  | nil => simp [broadcastLoop]
  | cons u t ih =>
    cases h : send u.id <;>
      simp [broadcastLoop, h, List.countP_cons, isErr_ok, isErr_nullId, isErr_err, ih]

theorem broadcastLoopU_err_mem (send : Nat → SendResult) (l : List User)
    (u : User) (m : String) (hu : u ∈ l) (hs : send u.id = .err m) :
    (⟨u.id, .failed, none, some m⟩ : UserDetail) ∈ (broadcastLoop send l).details := by
  induction l with
  | nil => cases hu
  | cons w t ih =>
    rcases List.mem_cons.mp hu with rfl | hu
    · simp [broadcastLoop, hs]
    · have hmem := ih hu
      cases h : send w.id <;> simp [broadcastLoop, h] <;>
        first
        | exact hmem
        | exact Or.inr hmem

end WithAuth

namespace Devices

theorem broadcastLoop_details_ids (send : Nat → SendResult) (l : List Device) :
    (broadcastLoop send l).details.map (fun e => e.deviceId) = l.map (fun d => d.id) := by
  induction l with
  | nil => simp [broadcastLoop]
  | cons d t ih => cases h : send d.id <;> simp [broadcastLoop, h, ih]

theorem broadcastLoop_attempts (send : Nat → SendResult) (l : List Device) :
    (broadcastLoop send l).attempts = l.map (fun d => d.id) := by
  induction l with
  | nil => simp [broadcastLoop]
  | cons d t ih => cases h : send d.id <;> simp [broadcastLoop, h, ih]

theorem broadcastLoop_counts (send : Nat → SendResult) (l : List Device) :
    (broadcastLoop send l).success + (broadcastLoop send l).failed
      + l.countP (fun d => (send d.id).isNullId) = l.length := by
  induction l with
  | nil => simp [broadcastLoop]
  | cons d t ih =>
    cases h : send d.id <;>
      simp [broadcastLoop, h, List.countP_cons, isNullId_ok, isNullId_nullId,
        isNullId_err] <;> omega

theorem broadcastLoop_failed (send : Nat → SendResult) (l : List Device) :
    (broadcastLoop send l).failed = l.countP (fun d => (send d.id).isErr) := by
  induction l with
  | nil => simp [broadcastLoop]
  | cons d t ih =>
    cases h : send d.id <;>
      simp [broadcastLoop, h, List.countP_cons, isErr_ok, isErr_nullId, isErr_err, ih]

theorem broadcastLoop_err_mem (send : Nat → SendResult) (l : List Device)
    (d : Device) (m : String) (hd : d ∈ l) (hs : send d.id = .err m) :
    (⟨d.id, .failed, none, some m⟩ : DeviceDetail) ∈ (broadcastLoop send l).details := by
  induction l with
  | nil => cases hd
  | cons w t ih =>
    rcases List.mem_cons.mp hd with rfl | hd
    · simp [broadcastLoop, hs]
    · have hmem := ih hd
      cases h : send w.id <;> simp [broadcastLoop, h] <;>
        first
        | exact hmem
        | exact Or.inr hmem

theorem broadcastLoop_no_inactive (send : Nat → SendResult) (l : List Device)
    (e : DeviceDetail) (he : e ∈ (broadcastLoop send l).details) :
    e.status ≠ DeviceStatus.inactive := by
  induction l with
  | nil => simp [broadcastLoop] at he
  | cons d t ih =>
    cases h : send d.id <;> simp [broadcastLoop, h] at he
    all_goals rcases he with rfl | he
    all_goals first | exact ih he | simp

theorem registerDevice_fst_of_find (db : DeviceDB) (args : RegisterArgs) (now : Nat)
    (dd : Device) (h : db.rows.find? (fun x => x.pushToken == args.pushToken) = some dd) :
    (registerDevice db args now).1 = dd.id ∧
    (registerDevice db args now).2.rows.length = db.rows.length := by
  constructor <;> simp [registerDevice, h]

/-- After `registerDevice`, the `pushToken` index lookup finds a row whose id
is the id the call returned. -/
theorem registerDevice_finds_self (db : DeviceDB) (args : RegisterArgs) (now : Nat) :
    ∃ d, (registerDevice db args now).2.rows.find? (fun x => x.pushToken == args.pushToken)
        = some d ∧ d.id = (registerDevice db args now).1 := by
  cases h : db.rows.find? (fun x => x.pushToken == args.pushToken) with
  | some existing =>
    have hcomp : ((fun (x : Device) => x.pushToken == args.pushToken) ∘
        (fun d => if d.id == existing.id then
          { d with lastSeen := now, isActive := some true, platform := args.platform,
                   appVersion := args.appVersion, deviceId := args.deviceId }
        else d))
        = fun (x : Device) => x.pushToken == args.pushToken := by
      funext d
      by_cases hd : d.id = existing.id <;> simp [hd]
    refine ⟨{ existing with
        lastSeen := now,
        isActive := some true,
        platform := args.platform,
        appVersion := args.appVersion,
        deviceId := args.deviceId }, ?_, ?_⟩
    · simp only [registerDevice, h]
      rw [List.find?_map, hcomp, h]
      simp
    · simp [registerDevice, h]
  | none =>
    refine ⟨{ id := db.nextId, pushToken := args.pushToken, deviceId := args.deviceId,
              platform := args.platform, appVersion := args.appVersion, lastSeen := now,
              isActive := some true }, ?_, ?_⟩
    · simp only [registerDevice, h]
      rw [List.find?_append, h]
      simp [List.find?]
    · simp [registerDevice, h]

end Devices

/-! Concrete fixtures used by witnesses and counterexamples. -/

/-- A registered, explicitly active device. -/
def devTokA : Devices.Device :=
  { id := 0, pushToken := "tokA", deviceId := none, platform := none,
    appVersion := none, lastSeen := 0, isActive := some true }

/-- A registered device whose `isActive` field is absent. -/
def devNoFlag : Devices.Device :=
  { id := 1, pushToken := "tokB", deviceId := none, platform := none,
    appVersion := none, lastSeen := 0, isActive := none }

/-- A device explicitly marked inactive. -/
def devOff : Devices.Device :=
  { id := 2, pushToken := "tokC", deviceId := none, platform := none,
    appVersion := none, lastSeen := 0, isActive := some false }

/-- A user with a push token. -/
def userTok : WithAuth.User := { id := 0, pushToken := some "tokA" }

/-- A second user with a push token. -/
def userTok2 : WithAuth.User := { id := 2, pushToken := some "tokD" }

/-- A user without a push token. -/
def userBare : WithAuth.User := { id := 1, pushToken := none }

namespace WithAuth

/-- Normal form of the authenticated broadcast when the auth guard passes. -/
theorem sendBroadcastNotification_ok (send : Nat → SendResult) (users : List User)
    (cu : Option User) (exU reqA : Option Bool)
    (hcond : ((reqA != some false) && cu.isNone) = false) :
    sendBroadcastNotification send users cu exU reqA
      = (Except.ok
          { success := (broadcastLoop send (usersWithTokensOf users cu exU)).success,
            failed := (broadcastLoop send (usersWithTokensOf users cu exU)).failed,
            total := (usersWithTokensOf users cu exU).length,
            senderId := cu.map (fun u => u.id),
            details := (broadcastLoop send (usersWithTokensOf users cu exU)).details
              ++ (usersWithoutTokensOf users cu exU).map
                  (fun u => ⟨u.id, .no_token, none, none⟩) },
         (broadcastLoop send (usersWithTokensOf users cu exU)).attempts) := by
  simp [sendBroadcastNotification, hcond]

/-- Recipient ids listed by the system broadcast details, in order: the
tokened users, then the untokened users. -/
theorem sendSystemBroadcast_details_ids (send : Nat → SendResult) (users : List User) :
    ((sendSystemBroadcast send users).1.details.map fun e => e.userId)
      = ((users.filter fun u => tokenTruthy u.pushToken).map fun u => u.id)
        ++ ((users.filter fun u => !(tokenTruthy u.pushToken)).map fun u => u.id) := by
  simp [sendSystemBroadcast, broadcastLoopU_details_ids]

end WithAuth

namespace Devices

/-- Recipient ids listed by the device broadcast details, in order: the
active devices, then the inactive devices. -/
theorem sendBroadcastNotification_details_ids (send : Nat → SendResult)
    (devices : List Device) (ex : Option Nat) :
    ((sendBroadcastNotification send devices ex).1.details.map fun e => e.deviceId)
      = ((activeDevicesOf devices ex).map fun d => d.id)
        ++ ((inactiveDevicesOf devices ex).map fun d => d.id) := by
  simp [sendBroadcastNotification, broadcastLoop_details_ids]

/-- The device broadcast attempts delivery exactly for the active devices. -/
theorem sendBroadcastNotification_attempts (send : Nat → SendResult)
    (devices : List Device) (ex : Option Nat) :
    (sendBroadcastNotification send devices ex).2
      = (activeDevicesOf devices ex).map fun d => d.id := by
  simp [sendBroadcastNotification, broadcastLoop_attempts]

/-- Every device handed to the loop produces a detail entry with its id and
a non-`inactive` status. -/
theorem broadcastLoop_mem_detail (send : Nat → SendResult) (l : List Device)
    (d : Device) (hd : d ∈ l) :
    ∃ e ∈ (broadcastLoop send l).details, e.deviceId = d.id ∧
      e.status ≠ DeviceStatus.inactive := by
  induction l with
  | nil => cases hd
  | cons w t ih =>
    rcases List.mem_cons.mp hd with rfl | hd
    · cases h : send d.id with
      | ok nid =>
        refine ⟨⟨d.id, .success, some nid, none⟩, ?_, rfl, by simp⟩
        simp [broadcastLoop, h]
      | nullId =>
        refine ⟨⟨d.id, .failed, none, some "No notification ID returned"⟩, ?_, rfl, by simp⟩
        simp [broadcastLoop, h]
      | err m =>
        refine ⟨⟨d.id, .failed, none, some m⟩, ?_, rfl, by simp⟩
        simp [broadcastLoop, h]
    · obtain ⟨e, he, hprop⟩ := ih hd
      refine ⟨e, ?_, hprop⟩
      cases h : send w.id <;> simp [broadcastLoop, h] <;>
        first
        | exact he
        | exact Or.inr he

end Devices

/-! The claims. -/

/-- C5: token registration is idempotent.  Registering the same token twice
in succession yields the same recipient id both times and the second call
(which finds the existing row by token and only patches it) leaves the
number of device rows unchanged; the user-variant `recordPushToken` likewise
only patches the row of the authenticated user, leaving the row count unchanged. -/
theorem claim_C5 (db : Devices.DeviceDB) (args : Devices.RegisterArgs) (now1 now2 : Nat)
    (udb : WithAuth.UserDB) (u : WithAuth.User) (t : String) :
    (Devices.registerDevice (Devices.registerDevice db args now1).2 args now2).1
        = (Devices.registerDevice db args now1).1 ∧
    (Devices.registerDevice (Devices.registerDevice db args now1).2 args now2).2.rows.length
        = (Devices.registerDevice db args now1).2.rows.length ∧
    (∃ udb2, WithAuth.recordPushToken udb (some u) t = Except.ok udb2 ∧
        udb2.rows.length = udb.rows.length) := by
  obtain ⟨dd, hfind, hid⟩ := Devices.registerDevice_finds_self db args now1
  refine ⟨?_, ?_, ?_⟩
  · exact ((Devices.registerDevice_fst_of_find _ args now2 dd hfind).1).trans hid
  · exact (Devices.registerDevice_fst_of_find _ args now2 dd hfind).2
  · refine ⟨⟨udb.rows.map fun (w : WithAuth.User) =>
        if w.id == u.id then { w with pushToken := some t } else w⟩, rfl, ?_⟩
    simp

/-- C6: a single-recipient send whose recipient id does not resolve fails
with a not-found error and makes no delivery attempt; the device variant
additionally fails (again without a delivery attempt) when the resolved
device is marked inactive. -/
theorem claim_C6 (udb : WithAuth.UserDB) (cu : WithAuth.User)
    (sendU sendD1 sendD2 : Nat → SendResult) (rid : Nat)
    (ddb1 ddb2 : Devices.DeviceDB) (i1 i2 now1 now2 : Nat) (dev : Devices.Device)
    (hnfU : ∀ w ∈ udb.rows, w.id ≠ rid)
    (hnfD : ∀ d ∈ ddb1.rows, d.id ≠ i1)
    (hfound : ddb2.rows.find? (fun d => d.id == i2) = some dev)
    (hinact : dev.isActive = some false) :
    WithAuth.sendNotificationToUser udb (some cu) sendU rid
        = (Except.error "Recipient not found", []) ∧
    Devices.sendNotificationToDevice ddb1 sendD1 i1 now1
        = (Except.error "Device not found", ddb1, []) ∧
    Devices.sendNotificationToDevice ddb2 sendD2 i2 now2
        = (Except.error "Device is not active", ddb2, []) := by
  have h1 : udb.rows.find? (fun w => w.id == rid) = none :=
    List.find?_eq_none.mpr fun w hw => by simpa using hnfU w hw
  have h2 : ddb1.rows.find? (fun d => d.id == i1) = none :=
    List.find?_eq_none.mpr fun d hd => by simpa using hnfD d hd
  refine ⟨by simp [WithAuth.sendNotificationToUser, h1],
    by simp [Devices.sendNotificationToDevice, h2], ?_⟩
  simp [Devices.sendNotificationToDevice, hfound, hinact]

/-- C6 witness: concrete unresolved user id, unresolved device id, and an
explicitly inactive device. -/
theorem claim_C6_witness :
    ((∀ w ∈ (⟨[userTok]⟩ : WithAuth.UserDB).rows, w.id ≠ 7) ∧
     (∀ d ∈ (⟨[devTokA], 5⟩ : Devices.DeviceDB).rows, d.id ≠ 9) ∧
     (⟨[devOff], 5⟩ : Devices.DeviceDB).rows.find? (fun d => d.id == 2) = some devOff ∧
     devOff.isActive = some false) ∧
    (WithAuth.sendNotificationToUser ⟨[userTok]⟩ (some userTok) (fun _ => .ok "n") 7
        = (Except.error "Recipient not found", []) ∧
     Devices.sendNotificationToDevice ⟨[devTokA], 5⟩ (fun _ => .ok "n") 9 3
        = (Except.error "Device not found", ⟨[devTokA], 5⟩, []) ∧
     Devices.sendNotificationToDevice ⟨[devOff], 5⟩ (fun _ => .ok "n") 2 3
        = (Except.error "Device is not active", ⟨[devOff], 5⟩, [])) :=
  ⟨⟨by decide, by decide, by decide, by decide⟩,
   claim_C6 ⟨[userTok]⟩ userTok (fun _ => .ok "n") (fun _ => .ok "n") (fun _ => .ok "n") 7
     ⟨[devTokA], 5⟩ ⟨[devOff], 5⟩ 9 2 3 3 devOff
     (by decide) (by decide) (by decide) (by decide)⟩

/-- C7: token removal is idempotent in the device variant.  When the device
row exists (in particular when it is already marked inactive) removal
succeeds, leaves the row inactive, and running it again succeeds without
changing the table; removal fails with the not-found error exactly when the
device row does not exist. -/
theorem claim_C7 (db : Devices.DeviceDB) (i : Nat) (dev : Devices.Device)
    (hfound : db.rows.find? (fun d => d.id == i) = some dev)
    (dbx : Devices.DeviceDB) (j : Nat)
    (hnone : ∀ d ∈ dbx.rows, d.id ≠ j) :
    (∃ db2, Devices.removeDeviceToken db i = Except.ok db2 ∧
        Devices.removeDeviceToken db2 i = Except.ok db2 ∧
        (∀ d ∈ db2.rows, d.id = i → d.isActive = some false)) ∧
    Devices.removeDeviceToken dbx j = Except.error "Device not found" ∧
    (∀ e, Devices.removeDeviceToken db i ≠ Except.error e) := by
  have hcomp : ((fun (x : Devices.Device) => x.id == i) ∘
      (fun d => if d.id == i then { d with isActive := some false } else d))
      = fun (x : Devices.Device) => x.id == i := by
    funext d
    by_cases hd : d.id = i <;> simp [hd]
  have hidem : ((fun (d : Devices.Device) => if d.id == i then { d with isActive := some false } else d) ∘
      (fun d => if d.id == i then { d with isActive := some false } else d))
      = fun (d : Devices.Device) => if d.id == i then { d with isActive := some false } else d := by
    funext d
    by_cases hd : d.id = i <;> simp [hd]
  have hnfx : dbx.rows.find? (fun d => d.id == j) = none :=
    List.find?_eq_none.mpr fun d hd => by simpa using hnone d hd
  refine ⟨⟨{ db with rows := db.rows.map fun d => if d.id == i then { d with isActive := some false } else d },
      ?_, ?_, ?_⟩, ?_, ?_⟩
  · simp [Devices.removeDeviceToken, hfound]
  · have hfind2 : (db.rows.map fun d => if d.id == i then { d with isActive := some false } else d).find?
        (fun x => x.id == i)
        = some (if dev.id == i then { dev with isActive := some false } else dev) := by
      rw [List.find?_map, hcomp, hfound]
      rfl
    simp only [Devices.removeDeviceToken, hfind2]
    rw [List.map_map, hidem]
  · intro d hd hdi
    rcases List.mem_map.mp hd with ⟨y, hy, rfl⟩
    by_cases hyi : y.id = i
    · simp [hyi]
    · simp [hyi] at hdi
  · simp [Devices.removeDeviceToken, hnfx]
  · intro e
    simp [Devices.removeDeviceToken, hfound]

/-- C7 witness: a table holding one already-inactive device, and a lookup
for an id that is not present. -/
theorem claim_C7_witness :
    ((⟨[devOff], 5⟩ : Devices.DeviceDB).rows.find? (fun d => d.id == 2) = some devOff ∧
     (∀ d ∈ (⟨[devOff], 5⟩ : Devices.DeviceDB).rows, d.id ≠ 9)) ∧
    ((∃ db2, Devices.removeDeviceToken ⟨[devOff], 5⟩ 2 = Except.ok db2 ∧
        Devices.removeDeviceToken db2 2 = Except.ok db2 ∧
        (∀ d ∈ db2.rows, d.id = 2 → d.isActive = some false)) ∧
     Devices.removeDeviceToken ⟨[devOff], 5⟩ 9 = Except.error "Device not found" ∧
     (∀ e, Devices.removeDeviceToken ⟨[devOff], 5⟩ 2 ≠ Except.error e)) :=
  ⟨⟨by decide, by decide⟩,
   claim_C7 ⟨[devOff], 5⟩ 2 devOff (by decide) ⟨[devOff], 5⟩ 9 (by decide)⟩

/-- C8: a status query on a recipient that does not resolve returns the
fixed default status instead of failing: `hasToken` and `paused` are false,
and in the device variant `isActive` is false as well. -/
theorem claim_C8 (db : Devices.DeviceDB) (statusD statusU : Nat → ExtStatus) (i : Nat)
    (hnf : ∀ d ∈ db.rows, d.id ≠ i) :
    Devices.getDevicePushStatus db statusD i = ⟨false, false, false⟩ ∧
    WithAuth.getMyPushStatus none statusU = ⟨false, false⟩ := by
  have hnone : db.rows.find? (fun d => d.id == i) = none :=
    List.find?_eq_none.mpr fun d hd => by simpa using hnf d hd
  exact ⟨by simp [Devices.getDevicePushStatus, hnone], rfl⟩

/-- C8 witness: status query for an id not present in the table, and for an
unauthenticated caller. -/
theorem claim_C8_witness :
    (∀ d ∈ (⟨[devTokA], 5⟩ : Devices.DeviceDB).rows, d.id ≠ 9) ∧
    (Devices.getDevicePushStatus ⟨[devTokA], 5⟩ (fun _ => ⟨true, true⟩) 9 = ⟨false, false, false⟩ ∧
     WithAuth.getMyPushStatus none (fun _ => ⟨true, true⟩) = ⟨false, false⟩) :=
  ⟨by decide, claim_C8 ⟨[devTokA], 5⟩ (fun _ => ⟨true, true⟩) (fun _ => ⟨true, true⟩) 9 (by decide)⟩

/-- C9: with `requireAuth := false` and no authenticated caller, the
authenticated-variant broadcast proceeds without error, returns no
`senderId`, and `excludeCurrentUser := true` excludes nobody: delivery is
attempted for every user with a truthy push token. -/
theorem claim_C9 (send : Nat → SendResult) (users : List WithAuth.User) :
    ((WithAuth.sendBroadcastNotification send users none (some true) (some false)).1.map
        (fun r => (r.senderId, r.total)))
      = Except.ok (none, (users.filter fun u => tokenTruthy u.pushToken).length) ∧
    (WithAuth.sendBroadcastNotification send users none (some true) (some false)).2
      = (users.filter fun u => tokenTruthy u.pushToken).map (fun u => u.id) := by
  have hfil : WithAuth.usersWithTokensOf users none (some true)
      = users.filter fun u => tokenTruthy u.pushToken := by
    refine List.filter_congr fun u hu => ?_
    simp [WithAuth.isExcluded]
  have hok := WithAuth.sendBroadcastNotification_ok send users none (some true) (some false)
    (by simp)
  rw [hok] at *
  constructor
  · simp [Except.map, hfil]
  · simp [hfil, WithAuth.broadcastLoopU_attempts]

/-- C10: in the device broadcast, a device whose `isActive` field is absent
is treated as active: it is in the eligible set, a delivery is attempted for
it, and its detail entry does not carry status `inactive`; conversely a
detail entry with status `inactive` can only name a device whose `isActive`
field is explicitly false. -/
theorem claim_C10 (send : Nat → SendResult) (devices : List Devices.Device)
    (ex : Option Nat) (d : Devices.Device)
    (hd : d ∈ devices) (hflag : d.isActive = none) (hex : ex ≠ some d.id) :
    d ∈ Devices.activeDevicesOf devices ex ∧
    d.id ∈ (Devices.sendBroadcastNotification send devices ex).2 ∧
    (∃ e ∈ (Devices.sendBroadcastNotification send devices ex).1.details,
        e.deviceId = d.id ∧ e.status ≠ Devices.DeviceStatus.inactive) ∧
    (∀ e ∈ (Devices.sendBroadcastNotification send devices ex).1.details,
        e.status = Devices.DeviceStatus.inactive →
        e.deviceId ∈ ((devices.filter fun x => x.isActive == some false).map fun x => x.id)) := by
  have hmem : d ∈ Devices.activeDevicesOf devices ex := by
    refine List.mem_filter.mpr ⟨hd, ?_⟩
    simp [hflag, bne_iff_ne, hex]
  refine ⟨hmem, ?_, ?_, ?_⟩
  · rw [Devices.sendBroadcastNotification_attempts]
    exact List.mem_map.mpr ⟨d, hmem, rfl⟩
  · obtain ⟨e, he, hprop⟩ := Devices.broadcastLoop_mem_detail send
      (Devices.activeDevicesOf devices ex) d hmem
    refine ⟨e, ?_, hprop⟩
    simp only [Devices.sendBroadcastNotification]
    exact List.mem_append_left _ he
  · intro e he hstat
    simp only [Devices.sendBroadcastNotification] at he
    rcases List.mem_append.mp he with hl | hr
    · exact absurd hstat (Devices.broadcastLoop_no_inactive send _ e hl)
    · rcases List.mem_map.mp hr with ⟨x, hx, rfl⟩
      have hxprop := List.mem_filter.mp hx
      refine List.mem_map.mpr ⟨x, List.mem_filter.mpr ⟨hxprop.1, ?_⟩, rfl⟩
      have := hxprop.2
      simp only [Devices.inactiveDevicesOf] at *
      exact (Bool.and_eq_true_iff.mp this).2

/-- C10 witness: a two-device table where one device lacks the `isActive`
flag and the other is explicitly inactive. -/
theorem claim_C10_witness :
    (devNoFlag ∈ [devNoFlag, devOff] ∧ devNoFlag.isActive = none ∧
     (none : Option Nat) ≠ some devNoFlag.id) ∧
    (devNoFlag ∈ Devices.activeDevicesOf [devNoFlag, devOff] none ∧
     devNoFlag.id ∈ (Devices.sendBroadcastNotification (fun _ => .ok "n") [devNoFlag, devOff] none).2 ∧
     (∃ e ∈ (Devices.sendBroadcastNotification (fun _ => .ok "n") [devNoFlag, devOff] none).1.details,
        e.deviceId = devNoFlag.id ∧ e.status ≠ Devices.DeviceStatus.inactive) ∧
     (∀ e ∈ (Devices.sendBroadcastNotification (fun _ => .ok "n") [devNoFlag, devOff] none).1.details,
        e.status = Devices.DeviceStatus.inactive →
        e.deviceId ∈ (([devNoFlag, devOff].filter fun x => x.isActive == some false).map fun x => x.id))) :=
  ⟨⟨by decide, by decide, by decide⟩,
   claim_C10 (fun _ => .ok "n") [devNoFlag, devOff] none devNoFlag
     (by decide) (by decide) (by decide)⟩

/-- C1 counterexample: one active device and a delivery component returning
null: the code records a `failed` detail but increments neither counter, so
`success + failed = 0` while `total = 1`. -/
theorem claim_C1_counterexample :
    (Devices.sendBroadcastNotification (fun _ => SendResult.nullId) [devTokA] none).1.success
      + (Devices.sendBroadcastNotification (fun _ => SendResult.nullId) [devTokA] none).1.failed
      ≠ (Devices.sendBroadcastNotification (fun _ => SendResult.nullId) [devTokA] none).1.total := by
  decide

/-- C1 (amended): for every broadcast, `success + failed` plus the number of
eligible recipients for which the delivery component returned null equals
`total`; in particular `success + failed = total` whenever no delivery call
returns null; the authenticated broadcast also returns normally under its
auth precondition. -/
theorem claim_C1 (send : Nat → SendResult) (devices : List Devices.Device) (ex : Option Nat)
    (users : List WithAuth.User) (cu : Option WithAuth.User) (exU reqA : Option Bool)
    (hauth : cu.isSome ∨ reqA = some false) :
    ((Devices.sendBroadcastNotification send devices ex).1.success
        + (Devices.sendBroadcastNotification send devices ex).1.failed
        + (Devices.activeDevicesOf devices ex).countP (fun d => (send d.id).isNullId)
      = (Devices.sendBroadcastNotification send devices ex).1.total) ∧
    ((WithAuth.sendSystemBroadcast send users).1.success
        + (WithAuth.sendSystemBroadcast send users).1.failed
        + (users.filter fun u => tokenTruthy u.pushToken).countP (fun u => (send u.id).isNullId)
      = (WithAuth.sendSystemBroadcast send users).1.total) ∧
    (∃ r, (WithAuth.sendBroadcastNotification send users cu exU reqA).1 = Except.ok r ∧
       r.success + r.failed
         + (WithAuth.usersWithTokensOf users cu exU).countP (fun u => (send u.id).isNullId)
       = r.total) := by
  have hcond : ((reqA != some false) && cu.isNone) = false := by
    rcases hauth with h | h
    · rcases Option.isSome_iff_exists.mp h with ⟨c, rfl⟩
      simp
    · simp [h]
  refine ⟨?_, ?_, ?_⟩
  · simpa [Devices.sendBroadcastNotification] using
      Devices.broadcastLoop_counts send (Devices.activeDevicesOf devices ex)
  · simpa [WithAuth.sendSystemBroadcast] using
      WithAuth.broadcastLoopU_counts send (users.filter fun u => tokenTruthy u.pushToken)
  · refine ⟨_,
      congrArg Prod.fst (WithAuth.sendBroadcastNotification_ok send users cu exU reqA hcond), ?_⟩
    simpa using WithAuth.broadcastLoopU_counts send (WithAuth.usersWithTokensOf users cu exU)

/-- C1 witness: an authenticated caller, two devices, three users, and a
delivery component that always returns an id. -/
theorem claim_C1_witness :
    ((some userTok : Option WithAuth.User).isSome ∨ (none : Option Bool) = some false) ∧
    (((Devices.sendBroadcastNotification (fun _ => .ok "n") [devTokA, devOff] none).1.success
        + (Devices.sendBroadcastNotification (fun _ => .ok "n") [devTokA, devOff] none).1.failed
        + (Devices.activeDevicesOf [devTokA, devOff] none).countP (fun d => ((fun _ => SendResult.ok "n") d.id).isNullId)
      = (Devices.sendBroadcastNotification (fun _ => .ok "n") [devTokA, devOff] none).1.total) ∧
    ((WithAuth.sendSystemBroadcast (fun _ => .ok "n") [userTok, userBare]).1.success
        + (WithAuth.sendSystemBroadcast (fun _ => .ok "n") [userTok, userBare]).1.failed
        + ([userTok, userBare].filter fun u => tokenTruthy u.pushToken).countP
            (fun u => ((fun _ => SendResult.ok "n") u.id).isNullId)
      = (WithAuth.sendSystemBroadcast (fun _ => .ok "n") [userTok, userBare]).1.total) ∧
    (∃ r, (WithAuth.sendBroadcastNotification (fun _ => .ok "n") [userTok, userBare]
            (some userTok) none none).1 = Except.ok r ∧
       r.success + r.failed
         + (WithAuth.usersWithTokensOf [userTok, userBare] (some userTok) none).countP
             (fun u => ((fun _ => SendResult.ok "n") u.id).isNullId)
       = r.total)) :=
  ⟨Or.inl (by decide),
   claim_C1 (fun _ => .ok "n") [devTokA, devOff] none [userTok, userBare]
     (some userTok) none none (Or.inl (by decide))⟩

/-- C2 counterexample: one enumerated device which the call excludes by id:
the details list is empty, so its length is not the full enumerated
recipient count and the enumerated recipient appears in no entry. -/
theorem claim_C2_counterexample :
    (Devices.sendBroadcastNotification (fun _ => SendResult.ok "n") [devTokA] (some 0)).1.details.length
      ≠ ([devTokA] : List Devices.Device).length := by
  decide

/-- C2 (amended): for every broadcast, the details list has exactly one
entry per enumerated recipient that is not named by the exclusion argument:
its recipient ids are a permutation of the ids of the non-excluded recipients (so
with no exclusion, or in the system broadcast, the length equals the full
enumerated count), and no recipient appears twice when the stored ids are
distinct. -/
theorem claim_C2 (send : Nat → SendResult) (devices : List Devices.Device) (ex : Option Nat)
    (users : List WithAuth.User) (cu : Option WithAuth.User) (exU reqA : Option Bool)
    (hND : (devices.map fun d => d.id).Nodup)
    (hNU : (users.map fun u => u.id).Nodup)
    (hauth : cu.isSome ∨ reqA = some false) :
    (List.Perm ((Devices.sendBroadcastNotification send devices ex).1.details.map fun e => e.deviceId)
       ((devices.filter fun d => ex != some d.id).map fun d => d.id) ∧
     (Devices.sendBroadcastNotification send devices ex).1.details.length
       = (devices.filter fun d => ex != some d.id).length ∧
     ((Devices.sendBroadcastNotification send devices ex).1.details.map fun e => e.deviceId).Nodup) ∧
    (List.Perm ((WithAuth.sendSystemBroadcast send users).1.details.map fun e => e.userId)
       (users.map fun u => u.id) ∧
     (WithAuth.sendSystemBroadcast send users).1.details.length = users.length ∧
     ((WithAuth.sendSystemBroadcast send users).1.details.map fun e => e.userId).Nodup) ∧
    (∃ r, (WithAuth.sendBroadcastNotification send users cu exU reqA).1 = Except.ok r ∧
       List.Perm (r.details.map fun e => e.userId)
         ((users.filter fun u => !(WithAuth.isExcluded exU cu u)).map fun u => u.id) ∧
       r.details.length = (users.filter fun u => !(WithAuth.isExcluded exU cu u)).length ∧
       (r.details.map fun e => e.userId).Nodup) := by
  have hcond : ((reqA != some false) && cu.isNone) = false := by
    rcases hauth with h | h
    · rcases Option.isSome_iff_exists.mp h with ⟨c, rfl⟩
      simp
    · simp [h]
  refine ⟨?_, ?_, ?_⟩
  · -- device variant
    have hids := Devices.sendBroadcastNotification_details_ids send devices ex
    have hsplit := filter_split_perm (fun d : Devices.Device => ex != some d.id)
      (fun d => d.isActive == some false) devices
    have hperm0 : List.Perm
        (Devices.activeDevicesOf devices ex ++ Devices.inactiveDevicesOf devices ex)
        (devices.filter fun d => ex != some d.id) :=
      (List.perm_append_comm).trans hsplit
    have hperm : List.Perm
        ((Devices.sendBroadcastNotification send devices ex).1.details.map fun e => e.deviceId)
        ((devices.filter fun d => ex != some d.id).map fun d => d.id) := by
      rw [hids, ← List.map_append]
      exact hperm0.map _
    have hnd : ((devices.filter fun d => ex != some d.id).map fun d => d.id).Nodup :=
      hND.sublist ((List.filter_sublist devices).map _)
    refine ⟨hperm, ?_, hperm.nodup_iff.mpr hnd⟩
    have := hperm.length_eq
    simpa using this
  · -- system broadcast
    have hids := WithAuth.sendSystemBroadcast_details_ids send users
    have hperm : List.Perm
        ((WithAuth.sendSystemBroadcast send users).1.details.map fun e => e.userId)
        (users.map fun u => u.id) := by
      rw [hids, ← List.map_append]
      exact (List.filter_append_perm _ users).map _
    refine ⟨hperm, ?_, hperm.nodup_iff.mpr hNU⟩
    have := hperm.length_eq
    simpa using this
  · -- authenticated broadcast
    refine ⟨_,
      congrArg Prod.fst (WithAuth.sendBroadcastNotification_ok send users cu exU reqA hcond), ?_⟩
    have hids : (((WithAuth.broadcastLoop send (WithAuth.usersWithTokensOf users cu exU)).details
          ++ (WithAuth.usersWithoutTokensOf users cu exU).map
              (fun u => (⟨u.id, .no_token, none, none⟩ : WithAuth.UserDetail))).map
            fun e => e.userId)
        = ((WithAuth.usersWithTokensOf users cu exU).map fun u => u.id)
          ++ ((WithAuth.usersWithoutTokensOf users cu exU).map fun u => u.id) := by
      simp [WithAuth.broadcastLoopU_details_ids]
    have hsplit := filter_split_perm (fun u : WithAuth.User => !(WithAuth.isExcluded exU cu u))
      (fun u => tokenTruthy u.pushToken) users
    have hperm : List.Perm
        (((WithAuth.broadcastLoop send (WithAuth.usersWithTokensOf users cu exU)).details
          ++ (WithAuth.usersWithoutTokensOf users cu exU).map
              (fun u => (⟨u.id, .no_token, none, none⟩ : WithAuth.UserDetail))).map
            fun e => e.userId)
        ((users.filter fun u => !(WithAuth.isExcluded exU cu u)).map fun u => u.id) := by
      rw [hids, ← List.map_append]
      exact hsplit.map _
    have hnd : ((users.filter fun u => !(WithAuth.isExcluded exU cu u)).map fun u => u.id).Nodup :=
      hNU.sublist ((List.filter_sublist users).map _)
    refine ⟨hperm, ?_, hperm.nodup_iff.mpr hnd⟩
    have := hperm.length_eq
    simpa using this

/-- C2 witness: a broadcast with an exclusion in each variant that supports
one, over stores with distinct ids. -/
theorem claim_C2_witness :
    ((([devTokA, devOff] : List Devices.Device).map fun d => d.id).Nodup ∧
     (([userTok, userBare, userTok2] : List WithAuth.User).map fun u => u.id).Nodup ∧
     ((some userTok : Option WithAuth.User).isSome ∨ (none : Option Bool) = some false)) ∧
    ((List.Perm ((Devices.sendBroadcastNotification (fun _ => .ok "n") [devTokA, devOff] (some 0)).1.details.map fun e => e.deviceId)
       (([devTokA, devOff].filter fun d => (some 0 : Option Nat) != some d.id).map fun d => d.id) ∧
     (Devices.sendBroadcastNotification (fun _ => .ok "n") [devTokA, devOff] (some 0)).1.details.length
       = ([devTokA, devOff].filter fun d => (some 0 : Option Nat) != some d.id).length ∧
     ((Devices.sendBroadcastNotification (fun _ => .ok "n") [devTokA, devOff] (some 0)).1.details.map fun e => e.deviceId).Nodup) ∧
    (List.Perm ((WithAuth.sendSystemBroadcast (fun _ => .ok "n") [userTok, userBare, userTok2]).1.details.map fun e => e.userId)
       ([userTok, userBare, userTok2].map fun u => u.id) ∧
     (WithAuth.sendSystemBroadcast (fun _ => .ok "n") [userTok, userBare, userTok2]).1.details.length
       = ([userTok, userBare, userTok2] : List WithAuth.User).length ∧
     ((WithAuth.sendSystemBroadcast (fun _ => .ok "n") [userTok, userBare, userTok2]).1.details.map fun e => e.userId).Nodup) ∧
    (∃ r, (WithAuth.sendBroadcastNotification (fun _ => .ok "n") [userTok, userBare, userTok2]
            (some userTok) (some true) none).1 = Except.ok r ∧
       List.Perm (r.details.map fun e => e.userId)
         (([userTok, userBare, userTok2].filter fun u => !(WithAuth.isExcluded (some true) (some userTok) u)).map fun u => u.id) ∧
       r.details.length = ([userTok, userBare, userTok2].filter fun u => !(WithAuth.isExcluded (some true) (some userTok) u)).length ∧
       (r.details.map fun e => e.userId).Nodup)) :=
  ⟨⟨by decide, by decide, Or.inl (by decide)⟩,
   claim_C2 (fun _ => .ok "n") [devTokA, devOff] (some 0) [userTok, userBare, userTok2]
     (some userTok) (some true) none (by decide) (by decide) (Or.inl (by decide))⟩

/-- C3: a thrown delivery error for an eligible recipient is caught and
recorded in the details with status `failed` and the stringified message;
the failure counter counts exactly the eligible recipients whose delivery
threw; every eligible recipient is still attempted; and the authenticated
broadcast still returns normally (no exception escapes). -/
theorem claim_C3 (send : Nat → SendResult) (devices : List Devices.Device) (ex : Option Nat)
    (users : List WithAuth.User) (cu : Option WithAuth.User) (exU reqA : Option Bool)
    (hauth : cu.isSome ∨ reqA = some false) :
    ((∀ d ∈ Devices.activeDevicesOf devices ex, ∀ m, send d.id = SendResult.err m →
        (⟨d.id, Devices.DeviceStatus.failed, none, some m⟩ : Devices.DeviceDetail)
          ∈ (Devices.sendBroadcastNotification send devices ex).1.details) ∧
     (Devices.sendBroadcastNotification send devices ex).1.failed
        = (Devices.activeDevicesOf devices ex).countP (fun d => (send d.id).isErr) ∧
     (Devices.sendBroadcastNotification send devices ex).2
        = (Devices.activeDevicesOf devices ex).map (fun d => d.id)) ∧
    (∃ r, (WithAuth.sendBroadcastNotification send users cu exU reqA).1 = Except.ok r ∧
       (∀ u ∈ WithAuth.usersWithTokensOf users cu exU, ∀ m, send u.id = SendResult.err m →
          (⟨u.id, WithAuth.UserStatus.failed, none, some m⟩ : WithAuth.UserDetail) ∈ r.details) ∧
       r.failed = (WithAuth.usersWithTokensOf users cu exU).countP (fun u => (send u.id).isErr) ∧
       (WithAuth.sendBroadcastNotification send users cu exU reqA).2
          = (WithAuth.usersWithTokensOf users cu exU).map (fun u => u.id)) := by
  have hcond : ((reqA != some false) && cu.isNone) = false := by
    rcases hauth with h | h
    · rcases Option.isSome_iff_exists.mp h with ⟨c, rfl⟩
      simp
    · simp [h]
  have hok := WithAuth.sendBroadcastNotification_ok send users cu exU reqA hcond
  refine ⟨⟨?_, ?_, Devices.sendBroadcastNotification_attempts send devices ex⟩,
    ⟨_, congrArg Prod.fst hok, ?_, ?_, ?_⟩⟩
  · intro d hdmem m hsend
    have hmem := Devices.broadcastLoop_err_mem send (Devices.activeDevicesOf devices ex) d m
      hdmem hsend
    simp only [Devices.sendBroadcastNotification]
    exact List.mem_append_left _ hmem
  · simpa [Devices.sendBroadcastNotification] using
      Devices.broadcastLoop_failed send (Devices.activeDevicesOf devices ex)
  · intro u humem m hsend
    exact List.mem_append_left _
      (WithAuth.broadcastLoopU_err_mem send (WithAuth.usersWithTokensOf users cu exU) u m
        humem hsend)
  · exact WithAuth.broadcastLoopU_failed send (WithAuth.usersWithTokensOf users cu exU)
  · exact (congrArg Prod.snd hok).trans
      (WithAuth.broadcastLoopU_attempts send (WithAuth.usersWithTokensOf users cu exU))

/-- C3 witness: a delivery component that throws for recipient id 0 and
succeeds elsewhere; the stores hold further eligible recipients, which are
still attempted. -/
theorem claim_C3_witness :
    ((some userTok2 : Option WithAuth.User).isSome ∨ (none : Option Bool) = some false) ∧
    ((∀ d ∈ Devices.activeDevicesOf [devTokA, devNoFlag, devOff] none, ∀ m,
        (if d.id == 0 then SendResult.err "boom" else SendResult.ok "n") = SendResult.err m →
        (⟨d.id, Devices.DeviceStatus.failed, none, some m⟩ : Devices.DeviceDetail)
          ∈ (Devices.sendBroadcastNotification
              (fun i => if i == 0 then SendResult.err "boom" else SendResult.ok "n")
              [devTokA, devNoFlag, devOff] none).1.details) ∧
     (Devices.sendBroadcastNotification
        (fun i => if i == 0 then SendResult.err "boom" else SendResult.ok "n")
        [devTokA, devNoFlag, devOff] none).1.failed
        = (Devices.activeDevicesOf [devTokA, devNoFlag, devOff] none).countP
            (fun d => ((fun i => if i == 0 then SendResult.err "boom" else SendResult.ok "n") d.id).isErr) ∧
     (Devices.sendBroadcastNotification
        (fun i => if i == 0 then SendResult.err "boom" else SendResult.ok "n")
        [devTokA, devNoFlag, devOff] none).2
        = (Devices.activeDevicesOf [devTokA, devNoFlag, devOff] none).map (fun d => d.id)) ∧
    (∃ r, (WithAuth.sendBroadcastNotification
            (fun i => if i == 0 then SendResult.err "boom" else SendResult.ok "n")
            [userTok, userBare, userTok2] (some userTok2) none none).1 = Except.ok r ∧
       (∀ u ∈ WithAuth.usersWithTokensOf [userTok, userBare, userTok2] (some userTok2) none, ∀ m,
          (if u.id == 0 then SendResult.err "boom" else SendResult.ok "n") = SendResult.err m →
          (⟨u.id, WithAuth.UserStatus.failed, none, some m⟩ : WithAuth.UserDetail) ∈ r.details) ∧
       r.failed = (WithAuth.usersWithTokensOf [userTok, userBare, userTok2] (some userTok2) none).countP
           (fun u => ((fun i => if i == 0 then SendResult.err "boom" else SendResult.ok "n") u.id).isErr) ∧
       (WithAuth.sendBroadcastNotification
            (fun i => if i == 0 then SendResult.err "boom" else SendResult.ok "n")
            [userTok, userBare, userTok2] (some userTok2) none none).2
          = (WithAuth.usersWithTokensOf [userTok, userBare, userTok2] (some userTok2) none).map
              (fun u => u.id)) :=
  ⟨Or.inl (by decide),
   claim_C3 (fun i => if i == 0 then SendResult.err "boom" else SendResult.ok "n")
     [devTokA, devNoFlag, devOff] none [userTok, userBare, userTok2] (some userTok2) none none
     (Or.inl (by decide))⟩

/-- C4: an explicitly excluded recipient is removed from consideration
entirely: it is not in the eligible set, no delivery is attempted for it,
it appears in no detail entry (so never as `success` or `failed`), and
`total` is computed from the remaining recipients only. -/
theorem claim_C4 (send : Nat → SendResult) (devices : List Devices.Device) (e : Nat)
    (users : List WithAuth.User) (c : WithAuth.User) (reqA : Option Bool) :
    ((∀ d ∈ Devices.activeDevicesOf devices (some e), d.id ≠ e) ∧
     (∀ det ∈ (Devices.sendBroadcastNotification send devices (some e)).1.details,
        det.deviceId ≠ e) ∧
     e ∉ (Devices.sendBroadcastNotification send devices (some e)).2 ∧
     (Devices.sendBroadcastNotification send devices (some e)).1.total
        = (devices.filter fun d => !(d.id == e)).countP (fun d => !(d.isActive == some false))) ∧
    (∃ r, (WithAuth.sendBroadcastNotification send users (some c) (some true) reqA).1
            = Except.ok r ∧
       (∀ u ∈ WithAuth.usersWithTokensOf users (some c) (some true), u.id ≠ c.id) ∧
       (∀ det ∈ r.details, det.userId ≠ c.id) ∧
       c.id ∉ (WithAuth.sendBroadcastNotification send users (some c) (some true) reqA).2 ∧
       r.total = (users.filter fun u => !(u.id == c.id)).countP (fun u => tokenTruthy u.pushToken)) := by
  have hok := WithAuth.sendBroadcastNotification_ok send users (some c) (some true) reqA (by simp)
  have hactive : ∀ d ∈ Devices.activeDevicesOf devices (some e), d.id ≠ e := by
    intro d hd
    have := (List.mem_filter.mp hd).2
    rcases Bool.and_eq_true_iff.mp this with ⟨h1, _⟩
    intro heq
    simp [heq] at h1
  have hwithTok : ∀ u ∈ WithAuth.usersWithTokensOf users (some c) (some true), u.id ≠ c.id := by
    intro u hu
    have := (List.mem_filter.mp hu).2
    rcases Bool.and_eq_true_iff.mp this with ⟨h1, _⟩
    intro heq
    simp [WithAuth.isExcluded, heq] at h1
  have hwithoutTok : ∀ u ∈ WithAuth.usersWithoutTokensOf users (some c) (some true), u.id ≠ c.id := by
    intro u hu
    have := (List.mem_filter.mp hu).2
    rcases Bool.and_eq_true_iff.mp this with ⟨h1, _⟩
    intro heq
    simp [WithAuth.isExcluded, heq] at h1
  have hinactive : ∀ d ∈ Devices.inactiveDevicesOf devices (some e), d.id ≠ e := by
    intro d hd
    have := (List.mem_filter.mp hd).2
    rcases Bool.and_eq_true_iff.mp this with ⟨h1, _⟩
    intro heq
    simp [heq] at h1
  refine ⟨⟨hactive, ?_, ?_, ?_⟩, ⟨_, congrArg Prod.fst hok, hwithTok, ?_, ?_, ?_⟩⟩
  · intro det hdet
    have hmemid : det.deviceId ∈
        ((Devices.sendBroadcastNotification send devices (some e)).1.details.map
          fun x => x.deviceId) := List.mem_map_of_mem _ hdet
    rw [Devices.sendBroadcastNotification_details_ids] at hmemid
    rcases List.mem_append.mp hmemid with hl | hr
    · rcases List.mem_map.mp hl with ⟨x, hx, hxid⟩
      rw [← hxid]
      exact hactive x hx
    · rcases List.mem_map.mp hr with ⟨x, hx, hxid⟩
      rw [← hxid]
      exact hinactive x hx
  · rw [Devices.sendBroadcastNotification_attempts]
    intro hmem
    rcases List.mem_map.mp hmem with ⟨x, hx, hxid⟩
    exact hactive x hx hxid
  · have h1 : (Devices.sendBroadcastNotification send devices (some e)).1.total
        = devices.countP
            (fun d => ((some e : Option Nat) != some d.id) && !(d.isActive == some false)) := by
      simp [Devices.sendBroadcastNotification, Devices.activeDevicesOf,
        List.countP_eq_length_filter]
    rw [h1, List.countP_filter]
    refine List.countP_congr fun d hd => ?_
    by_cases hid : d.id = e
    · simp [hid]
    · simp [hid, bne_iff_ne, Ne.symm hid]
  · intro det hdet
    have hmemid : det.userId ∈
        (((WithAuth.broadcastLoop send
            (WithAuth.usersWithTokensOf users (some c) (some true))).details
          ++ (WithAuth.usersWithoutTokensOf users (some c) (some true)).map
              (fun u => (⟨u.id, .no_token, none, none⟩ : WithAuth.UserDetail))).map
          fun x => x.userId) := List.mem_map_of_mem _ hdet
    rw [List.map_append, WithAuth.broadcastLoopU_details_ids] at hmemid
    rcases List.mem_append.mp hmemid with hl | hr
    · rcases List.mem_map.mp hl with ⟨x, hx, hxid⟩
      rw [← hxid]
      exact hwithTok x hx
    · rw [List.map_map] at hr
      rcases List.mem_map.mp hr with ⟨x, hx, hxid⟩
      rw [← hxid]
      exact hwithoutTok x hx
  · rw [(congrArg Prod.snd hok).trans (WithAuth.broadcastLoopU_attempts send _)]
    intro hmem
    rcases List.mem_map.mp hmem with ⟨x, hx, hxid⟩
    exact hwithTok x hx hxid
  · have h1 : (WithAuth.usersWithTokensOf users (some c) (some true)).length
        = users.countP
            (fun u => !(WithAuth.isExcluded (some true) (some c) u) && tokenTruthy u.pushToken) := by
      simp [WithAuth.usersWithTokensOf, List.countP_eq_length_filter]
    have h2 : (users.filter fun u => !(u.id == c.id)).countP (fun u => tokenTruthy u.pushToken)
        = users.countP (fun u => tokenTruthy u.pushToken && !(u.id == c.id)) :=
      List.countP_filter ..
    rw [h2]
    refine h1.trans (List.countP_congr fun u hu => ?_)
    simp [WithAuth.isExcluded, Bool.and_comm]

/-- C4 witness: a device store and a user store each holding the excluded
recipient alongside others. -/
theorem claim_C4_witness :
    ((∀ d ∈ Devices.activeDevicesOf [devTokA, devNoFlag, devOff] (some 0), d.id ≠ 0) ∧
     (∀ det ∈ (Devices.sendBroadcastNotification (fun _ => .ok "n") [devTokA, devNoFlag, devOff]
          (some 0)).1.details, det.deviceId ≠ 0) ∧
     0 ∉ (Devices.sendBroadcastNotification (fun _ => .ok "n") [devTokA, devNoFlag, devOff]
          (some 0)).2 ∧
     (Devices.sendBroadcastNotification (fun _ => .ok "n") [devTokA, devNoFlag, devOff]
          (some 0)).1.total
        = ([devTokA, devNoFlag, devOff].filter fun d => !(d.id == 0)).countP
            (fun d => !(d.isActive == some false))) ∧
    (∃ r, (WithAuth.sendBroadcastNotification (fun _ => .ok "n") [userTok, userBare, userTok2]
            (some userTok) (some true) none).1 = Except.ok r ∧
       (∀ u ∈ WithAuth.usersWithTokensOf [userTok, userBare, userTok2] (some userTok) (some true),
          u.id ≠ userTok.id) ∧
       (∀ det ∈ r.details, det.userId ≠ userTok.id) ∧
       userTok.id ∉ (WithAuth.sendBroadcastNotification (fun _ => .ok "n") [userTok, userBare, userTok2]
            (some userTok) (some true) none).2 ∧
       r.total = ([userTok, userBare, userTok2].filter fun u => !(u.id == userTok.id)).countP
           (fun u => tokenTruthy u.pushToken)) :=
  claim_C4 (fun _ => .ok "n") [devTokA, devNoFlag, devOff] 0 [userTok, userBare, userTok2]
    userTok none

end ConvexPush
